import Mathlib

/-!
Shallow embedding of `discord/ext/commands/context.py` (the `Context` class of
enhanced-discord.py): the dual-transport `send`/`reply` operations, the
`reinvoke` save/restore protocol, the `valid` predicate, the lazily cached
derived properties, and `send_help` dispatch.

Machine conventions:
* timestamps are integers counted in seconds; the 15-minute interaction
  window of `Context.send` is the constant 900;
* keyword-argument dictionaries are association lists `List (String × Nat)`
  whose values are opaque identities;
* entities owned by collaborators (messages, users, channels, guild members,
  help-command objects) are identified by `Nat` identities, so that Python
  reference equality becomes equality of identities.
-/

namespace DiscordCtx

/-- The slice of `Interaction.response` that `Context.send` consults:
`responded_at` (timestamp of the initial response, if any) and the result of
`is_done()`. -/
structure Interaction where
  responded_at : Option Int
  is_done : Bool
deriving DecidableEq

/-- The slice of the context state that `Context.send`/`Context.reply`
consult: the optional interaction and the triggering message's identity. -/
structure SendCtx where
  interaction : Option Interaction
  message : Nat
deriving DecidableEq

/-- Python `kwargs.pop(k, None)`: remove every binding of key `k`. -/
def kwPop (l : List (String × Nat)) (k : String) : List (String × Nat) :=
  l.filter (fun p => decide (¬ p.1 = k))

/-- Python `k in kwargs`. -/
def hasKey (l : List (String × Nat)) (k : String) : Bool :=
  l.any (fun p => decide (p.1 = k))

/-- The four `kwargs.pop` calls of `Context.send`: drop the options the
interaction transport does not support. -/
def stripKw (l : List (String × Nat)) : List (String × Nat) :=
  kwPop (kwPop (kwPop (kwPop l "nonce") "stickers") "reference") "mention_author"

/-- The transport call `Context.send` dispatches to:
* `plain content kwargs` — `super().send(content, **kwargs)`;
* `initial content ephemeral kwargs` —
  `interaction.response.send_message(content, ephemeral=ephemeral, **kwargs)`;
* `followup content ephemeral deferEph kwargs` —
  `interaction.followup.send(content, ephemeral=ephemeral, **kwargs)`,
  preceded by `interaction.response.defer(ephemeral=e)` when
  `deferEph = some e`. -/
inductive SendCall where
  | plain (content : Option String) (kwargs : List (String × Nat))
  | initial (content : Option String) (ephemeral : Bool) (kwargs : List (String × Nat))
  | followup (content : Option String) (ephemeral : Bool) (deferEph : Option Bool)
      (kwargs : List (String × Nat))
deriving DecidableEq

/-- Whether the call went through the plain channel-send transport. -/
def SendCall.isPlain : SendCall → Bool
  | .plain _ _ => true
  | _ => false

/-- The keyword options the chosen transport was handed. -/
def SendCall.kwargsOf : SendCall → List (String × Nat)
  | .plain _ kw => kw
  | .initial _ _ kw => kw
  | .followup _ _ _ kw => kw

/-- Embeds `Context.send` (context.py lines 458-483), as the transport call it
performs.  `now` is the value of `discord.utils.utcnow()`. -/
def ctxSend (now : Int) (c : SendCtx) (content : Option String)
    (return_message ephemeral : Bool) (kwargs : List (String × Nat)) : SendCall :=
  match c.interaction with
  | none => SendCall.plain content kwargs
  | some i =>
    if (match i.responded_at with
        | none => false
        | some t => decide (900 ≤ now - t)) then
      SendCall.plain content kwargs
    else
      if ¬ (return_message || i.is_done
            || hasKey (stripKw kwargs) "file" || hasKey (stripKw kwargs) "files"
            || hasKey (stripKw kwargs) "allowed_mentions") then
        SendCall.initial content ephemeral (stripKw kwargs)
      else
        SendCall.followup content ephemeral
          (if i.is_done then none else some ephemeral) (stripKw kwargs)

/-- Embeds `Context.reply` (context.py lines 497-501):
`self.send(content, return_message=return_message, reference=self.message, **kwargs)`.
Passing a `reference` option to `reply` itself would be a duplicate keyword
argument in Python (`TypeError` before `send` runs), modelled as `none`. -/
def ctxReply (now : Int) (c : SendCtx) (content : Option String)
    (return_message : Bool) (kwargs : List (String × Nat)) : Option SendCall :=
  if hasKey kwargs "reference" then
    none
  else
    some (ctxSend now c content return_message false (("reference", c.message) :: kwargs))

theorem hasKey_kwPop (l : List (String × Nat)) (k k' : String) (h : ¬ k = k') :
    hasKey (kwPop l k') k = hasKey l k := by
  induction l with
  | nil => rfl
  | cons p t ih =>
    by_cases hp : p.1 = k'
    · have hk'k : ¬ k' = k := fun hh => h hh.symm
      simp [kwPop, hasKey, hp, hk'k] at ih ⊢
      exact ih
    · simp [kwPop, hasKey, hp] at ih ⊢
      by_cases hk : p.1 = k
      · simp [hk]
      · simp [hk]
        exact ih

theorem hasKey_stripKw (l : List (String × Nat)) (k : String)
    (h1 : ¬ k = "nonce") (h2 : ¬ k = "stickers") (h3 : ¬ k = "reference")
    (h4 : ¬ k = "mention_author") :
    hasKey (stripKw l) k = hasKey l k := by
  unfold stripKw
  rw [hasKey_kwPop _ _ _ h4, hasKey_kwPop _ _ _ h3, hasKey_kwPop _ _ _ h2,
    hasKey_kwPop _ _ _ h1]

theorem stripKw_reference_cons (l : List (String × Nat)) (m : Nat) :
    stripKw (("reference", m) :: l) = stripKw l := by
  simp [stripKw, kwPop]

theorem ctxSend_kwargsOf_of_not_plain (now : Int) (c : SendCtx)
    (content : Option String) (return_message ephemeral : Bool)
    (kwargs : List (String × Nat))
    (h : (ctxSend now c content return_message ephemeral kwargs).isPlain = false) :
    (ctxSend now c content return_message ephemeral kwargs).kwargsOf
      = stripKw kwargs := by
  revert h
  unfold ctxSend
  split
  · intro h
    simp [SendCall.isPlain] at h
  · split
    · intro h
      simp [SendCall.isPlain] at h
    · split
      · intro _
        rfl
      · intro _
        rfl

/-- The mutable cursor of the shared `StringView`: `index` and `previous`. -/
structure ViewState where
  index : Nat
  previous : Nat
deriving DecidableEq

/-- The slice of a `Command` that `Context.reinvoke` consults: its identity
and the identity of its `root_parent` (`none` when the command has no
parent). -/
structure Command where
  cid : Nat
  root_parent : Option Nat
deriving DecidableEq

/-- The invocation-identity state of a `Context`, plus the fields the inner
reinvocation repopulates (`args`/`kwargs`) and the shared view cursor. -/
structure CtxState where
  command : Option Command
  prefix_ : Option String
  invoked_with : Option String
  invoked_parents : List String
  invoked_subcommand : Option Command
  subcommand_passed : Option String
  view : ViewState
  args : List Nat
  kwargs : List (String × Nat)
deriving DecidableEq

/-- Outcome of `Context.reinvoke`:
* `invalid s` — `ValueError("This context is not valid.")` raised with the
  context still in state `s`;
* `done target entry raised final` — `to_call.reinvoke` was invoked on the
  command identified by `target` with the context in state `entry`; `raised`
  records whether that inner call exited with an exception (which then
  propagates); `final` is the context state after the `finally` block. -/
inductive ROutcome where
  | invalid (s : CtxState)
  | done (target : Nat) (entry : CtxState) (raised : Bool) (final : CtxState)
deriving DecidableEq

/-- Embeds `Context.reinvoke` (context.py lines 193-253).

`gw` models `StringView.get_word` (view.py is not under src/): given the
cursor it returns the word read and the advanced cursor.  `inner` models
`to_call.reinvoke(self, call_hooks=call_hooks)` (core.py is not under src/):
given the target's identity, `call_hooks` and the context state it returns
whether it raised together with the context state it leaves behind. -/
def reinvoke (gw : ViewState → String × ViewState)
    (inner : Nat → Bool → CtxState → Bool × CtxState)
    (call_hooks restart : Bool) (s : CtxState) : ROutcome :=
  match s.command with
  | none => ROutcome.invalid s
  | some cmd =>
    let to_call : Nat := if restart then cmd.root_parent.getD cmd.cid else cmd.cid
    let s1 : CtxState :=
      if restart then
        let v0 : ViewState := ⟨(s.prefix_.getD "").length, 0⟩
        { s with
          view := (gw v0).2
          invoked_parents := []
          invoked_with := some (gw v0).1 }
      else s
    let s2 := (inner to_call call_hooks s1).2
    ROutcome.done to_call s1 (inner to_call call_hooks s1).1
      { s2 with
        command := some cmd
        view := ⟨s.view.index, s.view.previous⟩
        invoked_with := s.invoked_with
        invoked_subcommand := s.invoked_subcommand
        invoked_parents := s.invoked_parents
        subcommand_passed := s.subcommand_passed }

/-- Embeds `Context.valid` (context.py lines 255-258):
`self.prefix is not None and self.command is not None`. -/
def valid (s : CtxState) : Bool :=
  s.prefix_.isSome && s.command.isSome

/-- The slice of a `Message` that the cached context properties project:
the identities of its guild (if any), channel and author. -/
structure MessageModel where
  guild : Option Nat
  channel : Nat
  author : Nat
deriving DecidableEq

/-- A context together with the per-instance memo slots that
`discord.utils.cached_property` keeps for `guild`, `channel`, `author` and
`me` (`none` = not yet computed; `some v` = `v` stored). -/
structure PropCtx where
  message : MessageModel
  bot_user : Nat
  cache_guild : Option (Option Nat)
  cache_channel : Option Nat
  cache_author : Option Nat
  cache_me : Option Nat
deriving DecidableEq

/-- A freshly constructed context: `Context.__init__` fills no memo slot. -/
def initPropCtx (m : MessageModel) (bot_user : Nat) : PropCtx :=
  { message := m, bot_user := bot_user, cache_guild := none,
    cache_channel := none, cache_author := none, cache_me := none }

/-- Modelled from the spec: `discord.utils.cached_property` is not under
src/; per spec 4.1 an access computes the value from `message` on first
access, stores it, and returns the stored value afterwards.  This is the
`Context.guild` property (context.py lines 288-291). -/
def getGuild (c : PropCtx) : Option Nat × PropCtx :=
  match c.cache_guild with
  | some v => (v, c)
  | none => (c.message.guild, { c with cache_guild := some c.message.guild })

/-- Embeds `Context.channel` (context.py lines 293-298) under the same
`cached_property` model as `getGuild`. -/
def getChannel (c : PropCtx) : Nat × PropCtx :=
  match c.cache_channel with
  | some v => (v, c)
  | none => (c.message.channel, { c with cache_channel := some c.message.channel })

/-- Embeds `Context.author` (context.py lines 300-305) under the same
`cached_property` model as `getGuild`. -/
def getAuthor (c : PropCtx) : Nat × PropCtx :=
  match c.cache_author with
  | some v => (v, c)
  | none => (c.message.author, { c with cache_author := some c.message.author })

/-- Embeds `Context.me` (context.py lines 307-313) under the same `cached_property`
model as `getGuild`: `self.guild.me if self.guild is not None else
self.bot.user`, where `self.guild` is itself the cached property and
`guild_me` maps a guild's identity to its `.me` member identity. -/
def getMe (guild_me : Nat → Nat) (c : PropCtx) : Nat × PropCtx :=
  match c.cache_me with
  | some v => (v, c)
  | none =>
    let g := getGuild c
    let v : Nat :=
      match g.1 with
      | some gid => guild_me gid
      | none => g.2.bot_user
    (v, { g.2 with cache_me := some v })

/-- An entity handed to `Context.send_help` after string resolution, tagged
the way the source discriminates: an object carrying `__cog_commands__`
(a cog), a `Group`, a `Command`, or anything else (which may or may not
expose a `qualified_name` attribute). -/
inductive Entity where
  | cog (name : String)
  | group (name : String)
  | command (name : String)
  | other (qn : Option String)
deriving DecidableEq

/-- Python `entity.qualified_name`, `none` modelling an `AttributeError`. -/
def Entity.qualified_name : Entity → Option String
  | .cog n => some n
  | .group n => some n
  | .command n => some n
  | .other q => q

/-- A help-command object as stored on the bot: the only field `send_help`
writes is `context`. -/
structure HelpObj where
  hctx : Option Nat
deriving DecidableEq

/-- The part of the world `send_help` can mutate: the bot's
`help_command` slot (an identity into the store `objs`, or `none`) and the
store of help-command objects; `nextId` is the allocator for fresh
identities, so `copy()` yields an object distinct from every live one. -/
structure HelpWorld where
  help_command : Option Nat
  objs : Nat → HelpObj
  nextId : Nat

/-- The bot lookups `send_help` uses to resolve a string entity:
`bot.get_cog` and `bot.get_command`. -/
structure BotLookup where
  get_cog : String → Option Entity
  get_command : String → Option Entity

/-- The behaviour of the help renderer (help.py is not under src/):
`prepare_help_command`, `get_bot_mapping` and the four `send_*_help`
generators.  Modelled from the spec: per spec 4.6 / 7, `wrap_callback`
(core.py, not under src/) turns any error the generator raises into the one
command-error kind the `except` clause of `send_help` catches, so a
generator is a function into `Except Unit Nat` whose `error` case is any
rendering failure. -/
structure HelpRenderer where
  prepare : Option String → Except Unit Unit
  bot_mapping : Nat
  send_bot : Nat → Except Unit Nat
  send_cog : String → Except Unit Nat
  send_group : String → Except Unit Nat
  send_command : String → Except Unit Nat

/-- Embeds `cmd = bot.help_command.copy(); cmd.context = self`
(context.py lines 362-368): allocate a fresh identity holding a copy of the
stored object with its `context` field pointed at this context. -/
def worldAfterCopy (w : HelpWorld) (hid selfCtx : Nat) : HelpWorld :=
  { w with
    objs := fun i =>
      if i = w.nextId then { w.objs hid with hctx := some selfCtx } else w.objs i
    nextId := w.nextId + 1 }

/-- The value `send_help` produces once a help command is configured:
`Except.error` is an exception escaping to the caller (only
`prepare_help_command` can raise one), `Except.ok (v, cbk)` is a normal
return of `v` with `cbk` recording whether `on_help_command_error` was
invoked. -/
def sendHelpOutcome (bot : BotLookup) (r : HelpRenderer)
    (arg : Option (String ⊕ Entity)) : Except Unit (Option Nat × Bool) :=
  match arg with
  | none =>
    match r.prepare none with
    | Except.error e => Except.error e
    | Except.ok _ =>
      match r.send_bot r.bot_mapping with
      | Except.ok v => Except.ok (some v, false)
      | Except.error _ => Except.ok (none, true)
  | some a =>
    let ent : Option Entity :=
      match a with
      | Sum.inl s =>
        match bot.get_cog s with
        | some e => some e
        | none => bot.get_command s
      | Sum.inr e => some e
    match ent with
    | none => Except.ok (none, false)
    | some e =>
      match e.qualified_name with
      | none => Except.ok (none, false)
      | some qn =>
        match r.prepare (some qn) with
        | Except.error err => Except.error err
        | Except.ok _ =>
          match e with
          | Entity.cog n =>
            match r.send_cog n with
            | Except.ok v => Except.ok (some v, false)
            | Except.error _ => Except.ok (none, true)
          | Entity.group n =>
            match r.send_group n with
            | Except.ok v => Except.ok (some v, false)
            | Except.error _ => Except.ok (none, true)
          | Entity.command n =>
            match r.send_command n with
            | Except.ok v => Except.ok (some v, false)
            | Except.error _ => Except.ok (none, true)
          | Entity.other _ => Except.ok (none, false)

/-- Embeds `Context.send_help` (context.py lines 328-407): with no help command
configured return `None` at once; otherwise work on a fresh copy of the
configured help command (whose `context` is set to this context), resolve
the entity, and dispatch, catching command errors into
`on_help_command_error`.  `selfCtx` is this context's identity; the result
pairs the world after the call with the outcome. -/
def sendHelp (w : HelpWorld) (bot : BotLookup) (r : HelpRenderer) (selfCtx : Nat)
    (arg : Option (String ⊕ Entity)) : HelpWorld × Except Unit (Option Nat × Bool) :=
  match w.help_command with
  | none => (w, Except.ok (none, false))
  | some hid => (worldAfterCopy w hid selfCtx, sendHelpOutcome bot r arg)

/-- C1 counterexample: an interactive session whose first response was
recorded exactly 15 minutes (900 seconds) ago is NOT treated as active —
the comparison in the source is `>= timedelta(minutes=15)`, so `send`
routes to the plain channel transport, contradicting the claim's boundary
sentence. -/
theorem c1_boundary_counterexample :
    ctxSend 900
        { interaction := some { responded_at := some 0, is_done := true },
          message := 0 }
        none true false [] = SendCall.plain none []
    ∧ (ctxSend 900
        { interaction := some { responded_at := some 0, is_done := true },
          message := 0 }
        none true false []).isPlain = true := by
  constructor <;> rfl

/-- C1 (amended): for every call to `send`, if the context has no
interaction, or the interaction's initial response timestamp is recorded
and is at least 15 minutes in the past, `send` routes to the plain
channel-send transport with all keyword options passed through unchanged
and returns its result; a session whose first response was recorded exactly
15 minutes ago is treated as expired and routed to the plain transport. -/
theorem c1_send_plain_routing (now : Int) (c : SendCtx) (content : Option String)
    (return_message ephemeral : Bool) (kwargs : List (String × Nat))
    (h : c.interaction = none
      ∨ ∃ i t, c.interaction = some i ∧ i.responded_at = some t ∧ 900 ≤ now - t) :
    ctxSend now c content return_message ephemeral kwargs
      = SendCall.plain content kwargs := by
  rcases h with hnone | ⟨i, t, hi, ht, hle⟩
  · simp [ctxSend, hnone]
  · simp [ctxSend, hi, ht, hle]

/-- C1 witness: the amended routing theorem at a concrete expired session
(first response exactly 900 seconds old). -/
theorem c1_send_plain_routing_witness :
    ctxSend 900
        { interaction := some { responded_at := some 0, is_done := true },
          message := 0 }
        none true false [("nonce", 1)]
      = SendCall.plain none [("nonce", 1)] :=
  c1_send_plain_routing 900
    { interaction := some { responded_at := some 0, is_done := true }, message := 0 }
    none true false [("nonce", 1)]
    (Or.inr ⟨{ responded_at := some 0, is_done := true }, 0, rfl, rfl, by decide⟩)

/-- C2: for every call to `reinvoke` on a context with a non-null command,
whether the inner reinvocation returns normally or exits with an exception,
after `reinvoke` finishes the fields `command`, `invoked_with`,
`invoked_subcommand`, `invoked_parents`, `subcommand_passed`, and the view
cursor (`index` and `previous`) all equal their values from immediately
before the call — for every behaviour of the inner reinvocation. -/
theorem c2_reinvoke_restores (gw : ViewState → String × ViewState)
    (inner : Nat → Bool → CtxState → Bool × CtxState)
    (call_hooks restart : Bool) (s : CtxState) (cmd : Command)
    (h : s.command = some cmd) :
    ∃ target entry raised final,
      reinvoke gw inner call_hooks restart s = ROutcome.done target entry raised final
      ∧ final.command = s.command
      ∧ final.invoked_with = s.invoked_with
      ∧ final.invoked_subcommand = s.invoked_subcommand
      ∧ final.invoked_parents = s.invoked_parents
      ∧ final.subcommand_passed = s.subcommand_passed
      ∧ final.view.index = s.view.index
      ∧ final.view.previous = s.view.previous := by
  simp only [reinvoke, h]
  exact ⟨_, _, _, _, rfl, rfl, rfl, rfl, rfl, rfl, rfl, rfl⟩

/-- C2 witness: the restoration theorem at a concrete context and an inner
reinvocation that both raises and overwrites every restored field. -/
theorem c2_reinvoke_restores_witness :
    ∃ target entry raised final,
      reinvoke (fun v => ("root", v))
        (fun _ _ s => (true,
          { s with
            command := none, invoked_with := some "x",
            invoked_subcommand := some ⟨9, none⟩, invoked_parents := ["x"],
            subcommand_passed := some "y", view := ⟨77, 66⟩, args := [1] }))
        true false
        ⟨some ⟨5, some 2⟩, some "!", some "sub", ["p"], some ⟨6, none⟩,
          some "sp", ⟨10, 4⟩, [], []⟩
        = ROutcome.done target entry raised final
      ∧ final.command = some (⟨5, some 2⟩ : Command)
      ∧ final.invoked_with = some "sub"
      ∧ final.invoked_subcommand = some (⟨6, none⟩ : Command)
      ∧ final.invoked_parents = ["p"]
      ∧ final.subcommand_passed = some "sp"
      ∧ final.view.index = 10
      ∧ final.view.previous = 4 :=
  c2_reinvoke_restores (fun v => ("root", v))
    (fun _ _ s => (true,
      { s with
        command := none, invoked_with := some "x",
        invoked_subcommand := some ⟨9, none⟩, invoked_parents := ["x"],
        subcommand_passed := some "y", view := ⟨77, 66⟩, args := [1] }))
    true false
    ⟨some ⟨5, some 2⟩, some "!", some "sub", ["p"], some ⟨6, none⟩,
      some "sp", ⟨10, 4⟩, [], []⟩
    ⟨5, some 2⟩ rfl

/-- C5: for every call to `reinvoke` with `restart = true` on a context
with a non-null command, the invocation target is the command's root
ancestor (or the command itself when `root_parent` is none), and the state
handed to the inner reinvocation has the view cursor reset to the length of
the prefix with `previous` reset to 0 and then advanced by `get_word`,
`invoked_parents` cleared to the empty list, and `invoked_with` re-derived
as the word `get_word` reads at that reset position. -/
theorem c5_reinvoke_restart (gw : ViewState → String × ViewState)
    (inner : Nat → Bool → CtxState → Bool × CtxState)
    (call_hooks : Bool) (s : CtxState) (cmd : Command)
    (h : s.command = some cmd) :
    ∃ raised final,
      reinvoke gw inner call_hooks true s =
        ROutcome.done (cmd.root_parent.getD cmd.cid)
          { s with
            view := (gw ⟨(s.prefix_.getD "").length, 0⟩).2
            invoked_parents := []
            invoked_with := some (gw ⟨(s.prefix_.getD "").length, 0⟩).1 }
          raised final := by
  simp only [reinvoke, h, if_pos]
  exact ⟨_, _, rfl⟩

/-- C5 witness: the restart theorem at a concrete subcommand whose root
parent is command 3, with prefix `"!"` of length 1. -/
theorem c5_reinvoke_restart_witness :
    ∃ raised final,
      reinvoke (fun v => ("root", ⟨v.index + 4, v.index⟩))
        (fun _ _ s => (false, s)) false true
        ⟨some ⟨5, some 3⟩, some "!", some "sub", ["p"], none, none, ⟨10, 4⟩, [], []⟩
        = ROutcome.done 3
            { (⟨some ⟨5, some 3⟩, some "!", some "sub", ["p"], none, none,
                ⟨10, 4⟩, [], []⟩ : CtxState) with
              view := (⟨5, 1⟩ : ViewState)
              invoked_parents := []
              invoked_with := some "root" }
            raised final :=
  c5_reinvoke_restart (fun v => ("root", ⟨v.index + 4, v.index⟩))
    (fun _ _ s => (false, s)) false
    ⟨some ⟨5, some 3⟩, some "!", some "sub", ["p"], none, none, ⟨10, 4⟩, [], []⟩
    ⟨5, some 3⟩ rfl

/-- C6: for every context whose `command` field is null, `reinvoke` (for
any combination of `call_hooks` and `restart` and any collaborator
behaviour) fails with the invalid-state `ValueError` and mutates no field
of the context and no field of the view cursor: the outcome carries the
state unchanged. -/
theorem c6_reinvoke_invalid (gw : ViewState → String × ViewState)
    (inner : Nat → Bool → CtxState → Bool × CtxState)
    (call_hooks restart : Bool) (s : CtxState)
    (h : s.command = none) :
    reinvoke gw inner call_hooks restart s = ROutcome.invalid s := by
  simp [reinvoke, h]

/-- C6 witness: the invalid-state theorem at a concrete command-less
context. -/
theorem c6_reinvoke_invalid_witness :
    reinvoke (fun v => ("w", v)) (fun _ _ s => (false, s)) true true
      ⟨none, some "!", some "a", ["p"], none, some "b", ⟨3, 1⟩, [0], [("k", 1)]⟩
      = ROutcome.invalid
          ⟨none, some "!", some "a", ["p"], none, some "b", ⟨3, 1⟩, [0], [("k", 1)]⟩ :=
  c6_reinvoke_invalid (fun v => ("w", v)) (fun _ _ s => (false, s)) true true
    ⟨none, some "!", some "a", ["p"], none, some "b", ⟨3, 1⟩, [0], [("k", 1)]⟩ rfl

/-- C7: for every context, `valid` is true if and only if both `prefix` and
`command` are non-null (so it is false whenever either is null, across all
four combinations); it is a pure function of the state, so evaluating it
has no side effect on the context. -/
theorem c7_valid_iff (s : CtxState) :
    valid s = true ↔ (s.prefix_ ≠ none ∧ s.command ≠ none) := by
  simp [valid, Bool.and_eq_true, Option.isSome_iff_ne_none]

/-- C3: for every call to `send` with an active in-window interactive
session, the lightweight initial-response path is chosen if and only if
`return_message` is false, the session has not yet produced its initial
response (`is_done` false), and none of the `file`, `files` or
`allowed_mentions` options were requested; in every other case the
follow-up path is used, preceded by a deferred acknowledgment carrying the
`ephemeral` flag exactly when the session has not yet responded. -/
theorem c3_interactive_paths (now : Int) (c : SendCtx) (i : Interaction)
    (content : Option String) (return_message ephemeral : Bool)
    (kwargs : List (String × Nat))
    (hi : c.interaction = some i)
    (hactive : ∀ t, i.responded_at = some t → now - t < 900) :
    (return_message = false ∧ i.is_done = false
        ∧ hasKey kwargs "file" = false ∧ hasKey kwargs "files" = false
        ∧ hasKey kwargs "allowed_mentions" = false →
      ctxSend now c content return_message ephemeral kwargs
        = SendCall.initial content ephemeral (stripKw kwargs))
    ∧ ((return_message = true ∨ i.is_done = true ∨ hasKey kwargs "file" = true
        ∨ hasKey kwargs "files" = true ∨ hasKey kwargs "allowed_mentions" = true) →
      ctxSend now c content return_message ephemeral kwargs
        = SendCall.followup content ephemeral
            (if i.is_done then none else some ephemeral) (stripKw kwargs)) := by
  have hexp : (match i.responded_at with
      | none => false
      | some t => decide (900 ≤ now - t)) = false := by
    cases hr : i.responded_at with
    | none => rfl
    | some t =>
      have hlt := hactive t hr
      simp
      omega
  have hf : hasKey (stripKw kwargs) "file" = hasKey kwargs "file" :=
    hasKey_stripKw kwargs "file" (by decide) (by decide) (by decide) (by decide)
  have hfs : hasKey (stripKw kwargs) "files" = hasKey kwargs "files" :=
    hasKey_stripKw kwargs "files" (by decide) (by decide) (by decide) (by decide)
  have ham : hasKey (stripKw kwargs) "allowed_mentions"
      = hasKey kwargs "allowed_mentions" :=
    hasKey_stripKw kwargs "allowed_mentions" (by decide) (by decide) (by decide)
      (by decide)
  constructor
  · rintro ⟨h1, h2, h3, h4, h5⟩
    simp [ctxSend, hi, hexp, hf, hfs, ham, h1, h2, h3, h4, h5]
  · intro hdisj
    have hcond : (return_message || i.is_done || hasKey (stripKw kwargs) "file"
        || hasKey (stripKw kwargs) "files"
        || hasKey (stripKw kwargs) "allowed_mentions") = true := by
      rcases hdisj with h | h | h | h | h <;>
        simp [h, hf, hfs, ham]
    simp [ctxSend, hi, hexp, hcond]

/-- C3 witness: the path-selection theorem at a concrete active session
that has not yet responded, with `return_message = false` and only a
`nonce` option requested — the lightweight path is taken and the `nonce`
option is stripped. -/
theorem c3_interactive_paths_witness :
    ctxSend 0
        { interaction := some { responded_at := none, is_done := false },
          message := 5 }
        none false true [("nonce", 1)]
      = SendCall.initial none true [] :=
  (c3_interactive_paths 0
    { interaction := some { responded_at := none, is_done := false },
      message := 5 }
    { responded_at := none, is_done := false }
    none false true [("nonce", 1)] rfl
    (fun t ht => by cases ht)).1
    ⟨rfl, rfl, rfl, rfl, rfl⟩

/-- C9: for every well-formed call to `reply` (one whose options do not
already bind `reference`, which Python would reject as a duplicate keyword
argument), the result equals the result of calling `send` with the same
content and options plus an added message-reference option pointing at the
context's originating message; and whenever the interactive transport is
taken, that reference option (along with `nonce`, `stickers` and
`mention_author`) is silently stripped from the options the transport
receives rather than causing an error. -/
theorem c9_reply_is_send_with_reference (now : Int) (c : SendCtx)
    (content : Option String) (return_message : Bool)
    (kwargs : List (String × Nat))
    (h : hasKey kwargs "reference" = false) :
    ctxReply now c content return_message kwargs
      = some (ctxSend now c content return_message false
          (("reference", c.message) :: kwargs))
    ∧ ∀ sc, ctxReply now c content return_message kwargs = some sc →
        sc.isPlain = false → sc.kwargsOf = stripKw kwargs := by
  have hrep : ctxReply now c content return_message kwargs
      = some (ctxSend now c content return_message false
          (("reference", c.message) :: kwargs)) := by
    simp [ctxReply, h]
  refine ⟨hrep, ?_⟩
  intro sc hsc hnp
  rw [hrep, Option.some_inj] at hsc
  subst hsc
  have hk := ctxSend_kwargsOf_of_not_plain now c content return_message false
    (("reference", c.message) :: kwargs) hnp
  rw [stripKw_reference_cons] at hk
  exact hk

/-- C9 witness: the reply theorem at a concrete interactive context: the
reference option is added and then stripped by the interactive transport
together with `nonce`, leaving only the user's other option. -/
theorem c9_reply_witness :
    ctxReply 0
        { interaction := some { responded_at := none, is_done := true },
          message := 7 }
        none true [("nonce", 3), ("x", 4)]
      = some (ctxSend 0
          { interaction := some { responded_at := none, is_done := true },
            message := 7 }
          none true false [("reference", 7), ("nonce", 3), ("x", 4)]) :=
  (c9_reply_is_send_with_reference 0
    { interaction := some { responded_at := none, is_done := true },
      message := 7 }
    none true [("nonce", 3), ("x", 4)] rfl).1

/-- C8: for every freshly constructed context, each of the derived
properties `guild`, `channel`, `author` and `me` is computed from `message`
(and, for `me`, from `guild` and the bot) on first access, stored, and a
subsequent access returns the identical stored instance and leaves the
memo state untouched, even if the underlying message is replaced by an
arbitrary `m2` between the accesses. -/
theorem c8_cached_properties (m m2 : MessageModel) (bot_user : Nat)
    (guild_me : Nat → Nat) :
    ((getGuild (initPropCtx m bot_user)).1 = m.guild
      ∧ (getGuild { (getGuild (initPropCtx m bot_user)).2 with message := m2 }).1
          = (getGuild (initPropCtx m bot_user)).1
      ∧ (getGuild { (getGuild (initPropCtx m bot_user)).2 with message := m2 }).2
          = { (getGuild (initPropCtx m bot_user)).2 with message := m2 })
    ∧ ((getChannel (initPropCtx m bot_user)).1 = m.channel
      ∧ (getChannel { (getChannel (initPropCtx m bot_user)).2 with message := m2 }).1
          = (getChannel (initPropCtx m bot_user)).1
      ∧ (getChannel { (getChannel (initPropCtx m bot_user)).2 with message := m2 }).2
          = { (getChannel (initPropCtx m bot_user)).2 with message := m2 })
    ∧ ((getAuthor (initPropCtx m bot_user)).1 = m.author
      ∧ (getAuthor { (getAuthor (initPropCtx m bot_user)).2 with message := m2 }).1
          = (getAuthor (initPropCtx m bot_user)).1
      ∧ (getAuthor { (getAuthor (initPropCtx m bot_user)).2 with message := m2 }).2
          = { (getAuthor (initPropCtx m bot_user)).2 with message := m2 })
    ∧ ((getMe guild_me (initPropCtx m bot_user)).1
          = (match m.guild with
             | some g => guild_me g
             | none => bot_user)
      ∧ (getMe guild_me
            { (getMe guild_me (initPropCtx m bot_user)).2 with message := m2 }).1
          = (getMe guild_me (initPropCtx m bot_user)).1
      ∧ (getMe guild_me
            { (getMe guild_me (initPropCtx m bot_user)).2 with message := m2 }).2
          = { (getMe guild_me (initPropCtx m bot_user)).2 with message := m2 }) :=
  ⟨⟨rfl, rfl, rfl⟩, ⟨rfl, rfl, rfl⟩, ⟨rfl, rfl, rfl⟩, ⟨rfl, rfl, rfl⟩⟩

/-- C4: for every call to `send_help`: with no help command configured on
the bot it returns `None` immediately; a string entity that resolves to
neither a cog nor a command yields `None` without raising; when
`prepare_help_command` does not itself raise, the call never lets an
exception escape; and an error raised by any of the four help generators is
intercepted and routed to `on_help_command_error`, the caller observing
`None`. -/
theorem c4_send_help_safe (w : HelpWorld) (bot : BotLookup) (r : HelpRenderer)
    (selfCtx : Nat) :
    (w.help_command = none →
      ∀ arg, sendHelp w bot r selfCtx arg = (w, Except.ok (none, false)))
    ∧ (∀ s : String, bot.get_cog s = none → bot.get_command s = none →
      (sendHelp w bot r selfCtx (some (Sum.inl s))).2 = Except.ok (none, false))
    ∧ ((∀ q, r.prepare q = Except.ok ()) →
      ∀ arg, ∃ out, (sendHelp w bot r selfCtx arg).2 = Except.ok out)
    ∧ (∀ hid, w.help_command = some hid → r.prepare none = Except.ok () →
      ∀ e, r.send_bot r.bot_mapping = Except.error e →
      (sendHelp w bot r selfCtx none).2 = Except.ok (none, true))
    ∧ (∀ hid n, w.help_command = some hid → r.prepare (some n) = Except.ok () →
      ∀ e, r.send_cog n = Except.error e →
      (sendHelp w bot r selfCtx (some (Sum.inr (Entity.cog n)))).2
        = Except.ok (none, true))
    ∧ (∀ hid n, w.help_command = some hid → r.prepare (some n) = Except.ok () →
      ∀ e, r.send_group n = Except.error e →
      (sendHelp w bot r selfCtx (some (Sum.inr (Entity.group n)))).2
        = Except.ok (none, true))
    ∧ (∀ hid n, w.help_command = some hid → r.prepare (some n) = Except.ok () →
      ∀ e, r.send_command n = Except.error e →
      (sendHelp w bot r selfCtx (some (Sum.inr (Entity.command n)))).2
        = Except.ok (none, true)) := by
  refine ⟨?_, ?_, ?_, ?_, ?_, ?_, ?_⟩
  · intro hnone arg
    simp [sendHelp, hnone]
  · intro s hcog hcmd
    cases hw : w.help_command with
    | none => simp [sendHelp, hw]
    | some hid =>
      simp [sendHelp, hw, sendHelpOutcome, hcog, hcmd]
  · intro hprep arg
    cases hw : w.help_command with
    | none => exact ⟨(none, false), by simp [sendHelp, hw]⟩
    | some hid =>
      simp only [sendHelp, hw]
      cases arg with
      | none =>
        simp only [sendHelpOutcome, hprep none]
        cases hsb : r.send_bot r.bot_mapping with
        | ok v => exact ⟨(some v, false), by simp [hsb]⟩
        | error e => exact ⟨(none, true), by simp [hsb]⟩
      | some a =>
        simp only [sendHelpOutcome]
        rcases hent : (match a with
            | Sum.inl s =>
              (match bot.get_cog s with
               | some e => some e
               | none => bot.get_command s)
            | Sum.inr e => some e : Option Entity) with _ | e
        · exact ⟨(none, false), by simp [hent]⟩
        · rcases hq : e.qualified_name with _ | qn
          · exact ⟨(none, false), by simp [hent, hq]⟩
          · cases e with
            | cog n =>
              cases hs : r.send_cog n with
              | ok v => exact ⟨(some v, false), by simp [hent, hq, hprep, hs]⟩
              | error er => exact ⟨(none, true), by simp [hent, hq, hprep, hs]⟩
            | group n =>
              cases hs : r.send_group n with
              | ok v => exact ⟨(some v, false), by simp [hent, hq, hprep, hs]⟩
              | error er => exact ⟨(none, true), by simp [hent, hq, hprep, hs]⟩
            | command n =>
              cases hs : r.send_command n with
              | ok v => exact ⟨(some v, false), by simp [hent, hq, hprep, hs]⟩
              | error er => exact ⟨(none, true), by simp [hent, hq, hprep, hs]⟩
            | other q => exact ⟨(none, false), by simp [hent, hq, hprep]⟩
  · intro hid hw hprep e hsb
    simp [sendHelp, hw, sendHelpOutcome, hprep, hsb]
  · intro hid n hw hprep e hs
    simp [sendHelp, hw, sendHelpOutcome, Entity.qualified_name, hprep, hs]
  · intro hid n hw hprep e hs
    simp [sendHelp, hw, sendHelpOutcome, Entity.qualified_name, hprep, hs]
  · intro hid n hw hprep e hs
    simp [sendHelp, hw, sendHelpOutcome, Entity.qualified_name, hprep, hs]

/-- C4 witness: the safety theorem at a bot with no help command
configured, and at a configured bot whose string entity resolves to
nothing. -/
theorem c4_send_help_safe_witness :
    (sendHelp
        { help_command := none, objs := fun _ => { hctx := none }, nextId := 0 }
        { get_cog := fun _ => none, get_command := fun _ => none }
        { prepare := fun _ => Except.ok (), bot_mapping := 0,
          send_bot := fun _ => Except.error (), send_cog := fun _ => Except.ok 0,
          send_group := fun _ => Except.ok 0, send_command := fun _ => Except.ok 0 }
        0 none)
      = ({ help_command := none, objs := fun _ => { hctx := none }, nextId := 0 },
          Except.ok (none, false))
    ∧ (sendHelp
        { help_command := some 0, objs := fun _ => { hctx := none }, nextId := 1 }
        { get_cog := fun _ => none, get_command := fun _ => none }
        { prepare := fun _ => Except.ok (), bot_mapping := 0,
          send_bot := fun _ => Except.error (), send_cog := fun _ => Except.ok 0,
          send_group := fun _ => Except.ok 0, send_command := fun _ => Except.ok 0 }
        0 (some (Sum.inl "nonexistent-name"))).2
      = Except.ok (none, false) :=
  ⟨(c4_send_help_safe
      { help_command := none, objs := fun _ => { hctx := none }, nextId := 0 }
      { get_cog := fun _ => none, get_command := fun _ => none }
      { prepare := fun _ => Except.ok (), bot_mapping := 0,
        send_bot := fun _ => Except.error (), send_cog := fun _ => Except.ok 0,
        send_group := fun _ => Except.ok 0, send_command := fun _ => Except.ok 0 }
      0).1 rfl none,
    (c4_send_help_safe
      { help_command := some 0, objs := fun _ => { hctx := none }, nextId := 1 }
      { get_cog := fun _ => none, get_command := fun _ => none }
      { prepare := fun _ => Except.ok (), bot_mapping := 0,
        send_bot := fun _ => Except.error (), send_cog := fun _ => Except.ok 0,
        send_group := fun _ => Except.ok 0, send_command := fun _ => Except.ok 0 }
      0).2.1 "nonexistent-name" rfl rfl⟩

/-- C10: for every call to `send_help` on a world whose allocator is fresh
(every live help-command identity is below `nextId`), the bot's configured
help-command slot is unchanged and the stored help-command object it points
at — including its `context` field — is unchanged: `send_help` operates on
a freshly allocated copy and assigns the context only to that copy. -/
theorem c10_send_help_frame (w : HelpWorld) (bot : BotLookup) (r : HelpRenderer)
    (selfCtx : Nat) (arg : Option (String ⊕ Entity))
    (h : ∀ hid, w.help_command = some hid → hid < w.nextId) :
    (sendHelp w bot r selfCtx arg).1.help_command = w.help_command
    ∧ ∀ hid, w.help_command = some hid →
        (sendHelp w bot r selfCtx arg).1.objs hid = w.objs hid := by
  cases hw : w.help_command with
  | none => simp [sendHelp, hw]
  | some hid =>
    constructor
    · simp [sendHelp, hw, worldAfterCopy]
    · intro hid2 hh
      have hh2 : hid = hid2 := by injection hh
      subst hh2
      have hne : ¬ hid = w.nextId := Nat.ne_of_lt (h hid hw)
      simp [sendHelp, hw, worldAfterCopy, hne]

/-- C10 witness: the frame theorem at a concrete world holding one stored
help command at identity 0 whose `context` field is `none`. -/
theorem c10_send_help_frame_witness :
    (sendHelp
        { help_command := some 0, objs := fun _ => { hctx := none }, nextId := 1 }
        { get_cog := fun _ => none, get_command := fun _ => none }
        { prepare := fun _ => Except.ok (), bot_mapping := 0,
          send_bot := fun _ => Except.ok 0, send_cog := fun _ => Except.ok 0,
          send_group := fun _ => Except.ok 0, send_command := fun _ => Except.ok 0 }
        42 none).1.help_command = some 0
    ∧ (sendHelp
        { help_command := some 0, objs := fun _ => { hctx := none }, nextId := 1 }
        { get_cog := fun _ => none, get_command := fun _ => none }
        { prepare := fun _ => Except.ok (), bot_mapping := 0,
          send_bot := fun _ => Except.ok 0, send_cog := fun _ => Except.ok 0,
          send_group := fun _ => Except.ok 0, send_command := fun _ => Except.ok 0 }
        42 none).1.objs 0 = { hctx := none } :=
  ⟨(c10_send_help_frame
      { help_command := some 0, objs := fun _ => { hctx := none }, nextId := 1 }
      { get_cog := fun _ => none, get_command := fun _ => none }
      { prepare := fun _ => Except.ok (), bot_mapping := 0,
        send_bot := fun _ => Except.ok 0, send_cog := fun _ => Except.ok 0,
        send_group := fun _ => Except.ok 0, send_command := fun _ => Except.ok 0 }
      42 none (fun hid hh => by simp at hh ⊢; omega)).1,
    (c10_send_help_frame
      { help_command := some 0, objs := fun _ => { hctx := none }, nextId := 1 }
      { get_cog := fun _ => none, get_command := fun _ => none }
      { prepare := fun _ => Except.ok (), bot_mapping := 0,
        send_bot := fun _ => Except.ok 0, send_cog := fun _ => Except.ok 0,
        send_group := fun _ => Except.ok 0, send_command := fun _ => Except.ok 0 }
      42 none (fun hid hh => by simp at hh ⊢; omega)).2 0 rfl⟩

end DiscordCtx
